import Mathlib

/-!
Verification of the Canvas LMS installer's step-orchestration core.

The definitions below are a shallow embedding of the Python sources:

* `InstallationConfig`, `to_dict`, `from_dict` — `canvas_installer/config.py`
* `collect_config_fields`, `collect_configuration` —
  `CanvasInstaller.collect_configuration` in `canvas_installer/installer.py`
* `load_state`, `run_installation` (via `runLoop`), `mainEntry` —
  `CanvasInstaller._load_state`, `CanvasInstaller.run_installation`, `main`
  in `canvas_installer/installer.py`
* `run_command`, `runCmdSeq` — `CommandRunner.run_command` in
  `canvas_installer/utils.py`
* `ssl_execute`, `rce_execute`, `prerequisites_execute` —
  `SSLStep.execute` (`steps/step_09_ssl.py`), `RCEStep.execute`
  (`steps/step_13_rce.py`), `PrerequisitesStep.execute`
  (`steps/step_01_prerequisites.py`)

External effects (prompt answers, shell-command outcomes, generated secrets,
system-check results) are passed in as explicit oracles; stateful code is
state passing, and the observable actions of a run are recorded as an
explicit event trace.
-/

namespace CanvasInstall

/-- A JSON scalar stored in the persisted configuration dictionary; the
dataclass fields are strings and booleans. -/
inductive ConfigValue where
  | str (s : String)
  | bool (b : Bool)
deriving DecidableEq, Repr

/-- `InstallationConfig` from `canvas_installer/config.py`, with the
dataclass field defaults. -/
structure InstallationConfig where
  domain : String := ""
  canvas_password : String := ""
  smtp_server : String := ""
  smtp_port : String := "465"
  smtp_username : String := ""
  smtp_password : String := ""
  smtp_from_email : String := ""
  smtp_from_name : String := ""
  flickr_api_key : String := ""
  youtube_api_key : String := ""
  skip_ssl : Bool := false
  skip_rce : Bool := false
  skip_optimization : Bool := false
deriving DecidableEq, Repr

/-- The freshly constructed config (`InstallationConfig()` in
`CanvasInstaller.__init__`): every dataclass default. -/
def defaultConfig : InstallationConfig := {}

/-- `InstallationConfig.to_dict`: `dataclasses.asdict`, which lists every
field with its declared name in declaration order. -/
def InstallationConfig.to_dict (c : InstallationConfig) : List (String × ConfigValue) :=
  [("domain", ConfigValue.str c.domain),
   ("canvas_password", ConfigValue.str c.canvas_password),
   ("smtp_server", ConfigValue.str c.smtp_server),
   ("smtp_port", ConfigValue.str c.smtp_port),
   ("smtp_username", ConfigValue.str c.smtp_username),
   ("smtp_password", ConfigValue.str c.smtp_password),
   ("smtp_from_email", ConfigValue.str c.smtp_from_email),
   ("smtp_from_name", ConfigValue.str c.smtp_from_name),
   ("flickr_api_key", ConfigValue.str c.flickr_api_key),
   ("youtube_api_key", ConfigValue.str c.youtube_api_key),
   ("skip_ssl", ConfigValue.bool c.skip_ssl),
   ("skip_rce", ConfigValue.bool c.skip_rce),
   ("skip_optimization", ConfigValue.bool c.skip_optimization)]

/-- The dataclass field names, in declaration order. -/
def configKeys : List String :=
  ["domain", "canvas_password", "smtp_server", "smtp_port", "smtp_username",
   "smtp_password", "smtp_from_email", "smtp_from_name", "flickr_api_key",
   "youtube_api_key", "skip_ssl", "skip_rce", "skip_optimization"]

/-- Keyword lookup for a string field: a missing key falls back to the
dataclass default; a value of the wrong shape is treated as a failed
construction. -/
def getStr (d : List (String × ConfigValue)) (k : String) (dflt : String) : Option String :=
  match d.lookup k with
  | none => some dflt
  | some (ConfigValue.str s) => some s
  | some (ConfigValue.bool _) => none

/-- Keyword lookup for a boolean field, with the dataclass default. -/
def getBool (d : List (String × ConfigValue)) (k : String) (dflt : Bool) : Option Bool :=
  match d.lookup k with
  | none => some dflt
  | some (ConfigValue.bool b) => some b
  | some (ConfigValue.str _) => none

/-- `InstallationConfig.from_dict`: `cls(**data)`.  A key that is not a
dataclass field raises `TypeError` (modelled as `none`); a missing key takes
the field default. -/
def InstallationConfig.from_dict (d : List (String × ConfigValue)) :
    Option InstallationConfig := do
  guard (d.all (fun kv => configKeys.contains kv.1))
  let domain ← getStr d "domain" ""
  let canvas_password ← getStr d "canvas_password" ""
  let smtp_server ← getStr d "smtp_server" ""
  let smtp_port ← getStr d "smtp_port" "465"
  let smtp_username ← getStr d "smtp_username" ""
  let smtp_password ← getStr d "smtp_password" ""
  let smtp_from_email ← getStr d "smtp_from_email" ""
  let smtp_from_name ← getStr d "smtp_from_name" ""
  let flickr_api_key ← getStr d "flickr_api_key" ""
  let youtube_api_key ← getStr d "youtube_api_key" ""
  let skip_ssl ← getBool d "skip_ssl" false
  let skip_rce ← getBool d "skip_rce" false
  let skip_optimization ← getBool d "skip_optimization" false
  pure { domain, canvas_password, smtp_server, smtp_port, smtp_username,
         smtp_password, smtp_from_email, smtp_from_name, flickr_api_key,
         youtube_api_key, skip_ssl, skip_rce, skip_optimization }

/-- The answers the interactive prompts of `collect_configuration` would
return, one field per `Prompt.ask` / `Confirm.ask` call. -/
structure PromptAnswers where
  domain : String
  canvas_password : String
  configure_smtp : Bool
  smtp_server : String
  smtp_port : String
  smtp_username : String
  smtp_password : String
  smtp_from_email : String
  smtp_from_name : String
  configure_rce : Bool
  flickr_api_key : String
  youtube_api_key : String
  ssl_confirm : Bool
  optimization_confirm : Bool
deriving DecidableEq, Repr

/-- The field updates of `CanvasInstaller.collect_configuration`
(`installer.py` lines 87-124), before its final `_save_state` call:
domain is stripped; the SMTP block is set only when its prompt is
confirmed; declining the RCE-keys prompt sets `skip_rce`; the two feature
flags are the negated confirmations. -/
def collect_config_fields (c0 : InstallationConfig) (a : PromptAnswers) :
    InstallationConfig :=
  let c := { c0 with domain := a.domain.trim, canvas_password := a.canvas_password }
  let c := if a.configure_smtp then
      { c with smtp_server := a.smtp_server, smtp_port := a.smtp_port,
               smtp_username := a.smtp_username, smtp_password := a.smtp_password,
               smtp_from_email := a.smtp_from_email, smtp_from_name := a.smtp_from_name }
    else c
  let c := if a.configure_rce then
      { c with flickr_api_key := a.flickr_api_key, youtube_api_key := a.youtube_api_key }
    else { c with skip_rce := true }
  { c with skip_ssl := !a.ssl_confirm, skip_optimization := !a.optimization_confirm }

/-- Contents of the state file `canvas_install_state.json` as `_save_state`
writes it: `json.load` yields a dictionary whose relevant keys may each be
absent (`state.get(..., default)` in `_load_state`). -/
structure SavedState where
  current_step : Option Nat
  config : Option (List (String × ConfigValue))
  timestamp : Option String
deriving DecidableEq, Repr

/-- A state file on disk either parses to a dictionary or fails `json.load`. -/
inductive StateFileContent where
  | valid (s : SavedState)
  | corrupt
deriving DecidableEq, Repr

/-- The record `_save_state` writes: the current step index, the
`to_dict` snapshot of the configuration, and a timestamp. -/
def mkSaved (i : Nat) (cfg : InstallationConfig) (ts : String) : SavedState :=
  { current_step := some i, config := some cfg.to_dict, timestamp := some ts }

/-- Observable actions of a run, in order of occurrence. -/
inductive Event where
  | collectConfig
  | stepStart (i : Nat)
  | execStep (i : Nat) (ok : Bool)
  | saveState (s : SavedState)
  | removeState
deriving DecidableEq, Repr

/-- Result of `CanvasInstaller._load_state`: the fields it assigns
and its boolean return value. -/
structure LoadResult where
  cs : Nat
  cfg : InstallationConfig
  ok : Bool
deriving DecidableEq, Repr

/-- `CanvasInstaller._load_state` (`installer.py` lines 139-152): a missing
file or a `json.load` failure is swallowed and reported as `false`; on a
parsed dictionary, `current_step` is assigned first, so a subsequent
`from_dict` failure still leaves the step index updated while the
exception is caught and `false` returned. -/
def load_state (cs0 : Nat) (cfg0 : InstallationConfig)
    (fs : Option StateFileContent) : LoadResult :=
  match fs with
  | some (StateFileContent.valid s) =>
      let cs := s.current_step.getD 0
      match InstallationConfig.from_dict (s.config.getD []) with
      | some c => { cs := cs, cfg := c, ok := true }
      | none => { cs := cs, cfg := cfg0, ok := false }
  | some StateFileContent.corrupt => { cs := cs0, cfg := cfg0, ok := false }
  | none => { cs := cs0, cfg := cfg0, ok := false }

/-- Result of the installation loop: the boolean `run_installation`
returns, the final on-disk state file, and the trace of actions. -/
structure LoopResult where
  ok : Bool
  fs : Option StateFileContent
  trace : List Event
deriving DecidableEq, Repr

/-- There are 14 installation steps (`self.total_steps = 14`). -/
def total_steps : Nat := 14

/-- The step loop of `CanvasInstaller.run_installation` (`installer.py`
lines 169-205), running steps `i, i+1, ...` with `r` indices remaining:
each iteration reports the step, invokes `steps[i].execute()` (abstracted
by the oracle `exec`), on failure returns `False` leaving the state file
untouched, and on success assigns `current_step = i + 1` and immediately
persists it with `_save_state`; when the loop completes, the state file is
removed (if present) and `True` returned. -/
def runLoop (cfg : InstallationConfig) (exec : Nat → Bool) (ts : String) :
    Nat → Nat → Option StateFileContent → LoopResult
  | 0, _, fs =>
      { ok := true, fs := none,
        trace := match fs with
          | some _ => [Event.removeState]
          | none => [] }
  | r + 1, i, fs =>
      if exec i then
        let res := runLoop cfg exec ts r (i + 1)
          (some (StateFileContent.valid (mkSaved (i + 1) cfg ts)))
        { ok := res.ok, fs := res.fs,
          trace := Event.stepStart i :: Event.execStep i true ::
            Event.saveState (mkSaved (i + 1) cfg ts) :: res.trace }
      else
        { ok := false, fs := fs,
          trace := [Event.stepStart i, Event.execStep i false] }

/-- `CanvasInstaller.run_installation` (`installer.py` lines 154-214).
If a state file exists the user is asked whether to resume: accepting runs
`_load_state` (whose step index and config are used whether or not it
succeeded); declining deletes the file and restarts at index 0.  The loop
then runs from the current step index. -/
def run_installation (cs0 : Nat) (cfg0 : InstallationConfig)
    (fs0 : Option StateFileContent) (resumeAns : Bool) (exec : Nat → Bool)
    (ts : String) : LoopResult :=
  match fs0 with
  | some _ =>
      if resumeAns then
        let l := load_state cs0 cfg0 fs0
        runLoop l.cfg exec ts (total_steps - l.cs) l.cs fs0
      else
        let r := runLoop cfg0 exec ts total_steps 0 none
        { ok := r.ok, fs := r.fs, trace := Event.removeState :: r.trace }
  | none => runLoop cfg0 exec ts (total_steps - cs0) cs0 fs0

/-- Truthiness of `os.environ.get('SUDO_USER')`: `None` (unset) and the
empty string are falsy. -/
def envTruthy : Option String → Bool
  | none => false
  | some s => !s.isEmpty

/-- The guard of `main` (`installer.py` line 219):
`os.geteuid() != 0 and not os.environ.get('SUDO_USER')` makes the process
exit with status 1. -/
def privFails (euid : Nat) (sudoUser : Option String) : Bool :=
  euid != 0 && !(envTruthy sudoUser)

/-- Outcome of the `main` entry point: the process exit status, the final
on-disk state file, and the trace of actions. -/
structure MainResult where
  exit : Nat
  fs : Option StateFileContent
  trace : List Event
deriving DecidableEq, Repr

/-- `CanvasInstaller.collect_configuration` at the state level: it fills the
configuration from the prompt answers and ends with `_save_state`, writing
the state file with the current step index (0 at this point). -/
def collect_configuration (c0 : InstallationConfig) (a : PromptAnswers)
    (cs : Nat) (ts : String) :
    InstallationConfig × Option StateFileContent × List Event :=
  let c := collect_config_fields c0 a
  (c, some (StateFileContent.valid (mkSaved cs c ts)),
    [Event.collectConfig, Event.saveState (mkSaved cs c ts)])

/-- `main` (`installer.py` lines 217-231): exit 1 before anything else when
the privilege guard fails; otherwise collect the configuration only when no
state file exists, run the installation, and exit 0 exactly when it
returned `True`. -/
def main (euid : Nat) (sudoUser : Option String) (fs0 : Option StateFileContent)
    (answers : PromptAnswers) (resumeAns : Bool) (exec : Nat → Bool)
    (ts : String) : MainResult :=
  if privFails euid sudoUser then
    { exit := 1, fs := fs0, trace := [] }
  else
    match fs0 with
    | none =>
        let col := collect_configuration defaultConfig answers 0 ts
        let r := run_installation 0 col.1 col.2.1 resumeAns exec ts
        { exit := if r.ok then 0 else 1, fs := r.fs, trace := col.2.2 ++ r.trace }
    | some _ =>
        let r := run_installation 0 defaultConfig fs0 resumeAns exec ts
        { exit := if r.ok then 0 else 1, fs := r.fs, trace := r.trace }

/-- Outcome of one external shell command, as seen by
`CommandRunner.run_command` (`utils.py` lines 17-54): success, a
`CalledProcessError` with its exit code, a `TimeoutExpired`, or any other
unexpected exception. -/
inductive CmdOutcome where
  | success
  | nonZeroExit (returncode : Int)
  | timeoutExpired
  | unexpected (msg : String)
deriving DecidableEq, Repr

/-- `CommandRunner.run_command`: it logs and re-raises every failure, so a
non-success outcome propagates out of the runner as an exception. -/
def run_command (o : String → CmdOutcome) (cmd : String) : Except CmdOutcome Unit :=
  match o cmd with
  | CmdOutcome.success => Except.ok ()
  | e => Except.error e

/-- Run a list of commands in order, stopping at the first exception; the
second component records the commands actually invoked. -/
def runCmdSeq (o : String → CmdOutcome) : List String → Except CmdOutcome Unit × List String
  | [] => (Except.ok (), [])
  | c :: cs =>
      match run_command o c with
      | Except.ok _ =>
          let r := runCmdSeq o cs
          (r.1, c :: r.2)
      | Except.error e => (Except.error e, [c])

/-- What a step's `execute` returns: its boolean result, the exception its
handler logged as the failure reason (if any), and the shell commands it
invoked. -/
structure ExecResult where
  ok : Bool
  reason : Option CmdOutcome
  ran : List String
deriving DecidableEq, Repr

/-- The shell commands of `SSLStep.execute`'s try block
(`steps/step_09_ssl.py` lines 27-48), in order. -/
def ssl_commands (cfg : InstallationConfig) : List String :=
  ["sudo apt update",
   "sudo apt install -y certbot python3-certbot-apache",
   "sudo certbot --apache -d " ++ cfg.domain,
   "(crontab -l 2>/dev/null; echo \"0 0 * * * /usr/bin/certbot renew --quiet\") | sudo crontab -"]

/-- `SSLStep.execute` (`steps/step_09_ssl.py` lines 19-55): with
`skip_ssl` set it returns `True` before reaching any command; otherwise it
runs its commands inside `try`, returning `True` on completion and
converting any exception to `False` in the `except` handler. -/
def ssl_execute (cfg : InstallationConfig) (o : String → CmdOutcome) : ExecResult :=
  if cfg.skip_ssl then { ok := true, reason := none, ran := [] }
  else
    match runCmdSeq o (ssl_commands cfg) with
    | (Except.ok _, l) => { ok := true, reason := none, ran := l }
    | (Except.error e, l) => { ok := false, reason := some e, ran := l }

/-- The three `secrets.token_hex` values `RCEStep.execute` generates. -/
structure RceSecrets where
  ecosystem_secret : String
  ecosystem_key : String
  cipher_password : String
deriving DecidableEq, Repr

/-- The `.env` file content `RCEStep.execute` writes. -/
def rce_env (cfg : InstallationConfig) (s : RceSecrets) : String :=
  "NODE_ENV=production\nECOSYSTEM_SECRET=" ++ s.ecosystem_secret ++
  "\nECOSYSTEM_KEY=" ++ s.ecosystem_key ++
  "\nCIPHER_PASSWORD=" ++ s.cipher_password ++
  "\nFLICKR_API_KEY=" ++ cfg.flickr_api_key ++
  "\nYOUTUBE_API_KEY=" ++ cfg.youtube_api_key

/-- The `vault_contents.yml` content `RCEStep.execute` writes. -/
def vault_config (s : RceSecrets) : String :=
  "production:\n  \x27sts/testaccount/sts/canvas-shards-lookupper-dev\x27:\n" ++
  "    access_key: \x27fake-access-key\x27\n    secret_key: \x27fake-secret-key\x27\n" ++
  "    security_token: \x27fake-security-token\x27\n" ++
  "  \x27sts/testaccount/sts/canvas-release-notes\x27:\n" ++
  "    access_key: \x27fake-access-key\x27\n    secret_key: \x27fake-secret-key\x27\n" ++
  "    security_token: \x27fake-security-token\x27\n" ++
  "  \x27app-canvas/data/secrets\x27:\n    data:\n      canvas_security:\n" ++
  "        encryption_secret: \"" ++ s.ecosystem_key ++ "\"\n" ++
  "        signing_secret: \"" ++ s.ecosystem_secret ++ "\"\n"

/-- The two commands `CommandRunner.write_config_file` runs when
`sudo=True` (`utils.py` lines 58-62). -/
def write_config_file_cmds (filepath content : String) : List String :=
  ["echo \"" ++ content ++ "\" | sudo tee " ++ filepath ++ " > /dev/null",
   "sudo chown canvas:canvas " ++ filepath]

/-- The shell commands of `RCEStep.execute`'s try block
(`steps/step_13_rce.py` lines 28-93), in order: the clone script, the npm
script, the two sudo writes of `.env`, the two sudo writes of
`vault_contents.yml`, and the `screen` install. -/
def rce_commands (cfg : InstallationConfig) (s : RceSecrets) : List String :=
  ["bash -c \"\n                # Configure Git for root user\n" ++
   "                git config --global --add safe.directory \x27*\x27 &&\n" ++
   "                \n                # Clone RCE API\n                cd /var &&\n" ++
   "                git clone https://github.com/instructure/canvas-rce-api.git &&\n" ++
   "                \n                # Set proper ownership immediately\n" ++
   "                chown -R canvas:canvas /var/canvas-rce-api\n            \"",
   "bash -c \"\n                cd /var/canvas-rce-api &&\n" ++
   "                sudo -u canvas npm install --production &&\n" ++
   "                sudo -u canvas npm audit fix --force\n            \""] ++
  write_config_file_cmds "/var/canvas-rce-api/.env" (rce_env cfg s) ++
  write_config_file_cmds "/var/canvas/config/vault_contents.yml" (vault_config s) ++
  ["sudo apt install -y screen"]

/-- `RCEStep.execute` (`steps/step_13_rce.py` lines 20-103): with
`skip_rce` set it returns `True` before reaching any command; otherwise it
runs its commands inside `try`, returning `True` on completion and
converting any exception to `False` in the `except` handler. -/
def rce_execute (cfg : InstallationConfig) (s : RceSecrets)
    (o : String → CmdOutcome) : ExecResult :=
  if cfg.skip_rce then { ok := true, reason := none, ran := [] }
  else
    match runCmdSeq o (rce_commands cfg s) with
    | (Except.ok _, l) => { ok := true, reason := none, ran := l }
    | (Except.error e, l) => { ok := false, reason := some e, ran := l }

/-- Results of the five `SystemChecker` calls of `PrerequisitesStep`
(`steps/step_01_prerequisites.py` lines 26-32): each either returns a
`(passed, details)` pair or raises. -/
structure CheckOracle where
  ubuntu : Except String (Bool × String)
  sudo_access : Except String (Bool × String)
  hardware : Except String (Bool × String)
  internet : Except String (Bool × String)
  disk_space : Except String (Bool × String)
deriving Repr

/-- The check list of `PrerequisitesStep.execute`, in table order. -/
def prereq_checks (co : CheckOracle) : List (Except String (Bool × String)) :=
  [co.ubuntu, co.sudo_access, co.hardware, co.internet, co.disk_space]

/-- A check counts as passed only when it returned `(True, _)`; a raising
check is caught by the per-check `except` and recorded as an error row,
clearing `all_passed`. -/
def checkPassed : Except String (Bool × String) → Bool
  | Except.ok (r, _) => r
  | Except.error _ => false

/-- `PrerequisitesStep.execute` (`steps/step_01_prerequisites.py` lines
21-63): runs the five checks, each inside its own `except`, and returns
`True` exactly when all passed; it invokes no command through
`CommandRunner` and never lets a check's exception escape. -/
def prerequisites_execute (co : CheckOracle) : ExecResult :=
  { ok := (prereq_checks co).all checkPassed, reason := none, ran := [] }

/-- A fixed set of prompt answers used to instantiate witnesses. -/
def answers0 : PromptAnswers :=
  { domain := "canvas.example.com", canvas_password := "pw", configure_smtp := false,
    smtp_server := "", smtp_port := "", smtp_username := "", smtp_password := "",
    smtp_from_email := "", smtp_from_name := "", configure_rce := false,
    flickr_api_key := "", youtube_api_key := "", ssl_confirm := true,
    optimization_confirm := true }

theorem from_dict_to_dict (c : InstallationConfig) :
    InstallationConfig.from_dict (InstallationConfig.to_dict c) = some c := rfl

theorem runLoop_exec_mem_bounds (cfg : InstallationConfig) (exec : Nat → Bool)
    (ts : String) :
    ∀ r i fs j b, Event.execStep j b ∈ (runLoop cfg exec ts r i fs).trace →
      i ≤ j ∧ j < i + r := by
  intro r
  induction r with
  | zero =>
      intro i fs j b h
      cases fs <;> simp [runLoop] at h
  | succ r ih =>
      intro i fs j b h
      cases hx : exec i with
      | true =>
          simp only [runLoop, hx, if_true, List.mem_cons] at h
          rcases h with h | h | h | h
          · cases h
          · injection h with h1 h2; omega
          · cases h
          · rcases ih (i + 1) _ j b h with ⟨h1, h2⟩; omega
      | false =>
          simp [runLoop, hx] at h
          omega

theorem runLoop_all_success (cfg : InstallationConfig) (exec : Nat → Bool)
    (ts : String) :
    ∀ r i fs, (∀ j, i ≤ j → j < i + r → exec j = true) →
      (runLoop cfg exec ts r i fs).ok = true ∧ (runLoop cfg exec ts r i fs).fs = none := by
  intro r
  induction r with
  | zero => intro i fs _; cases fs <;> simp [runLoop]
  | succ r ih =>
      intro i fs h
      have hx : exec i = true := h i le_rfl (by omega)
      have hr := ih (i + 1) (some (StateFileContent.valid (mkSaved (i + 1) cfg ts)))
        (fun j hj1 hj2 => h j (by omega) (by omega))
      simpa [runLoop, hx] using hr

theorem runLoop_fail_at (cfg : InstallationConfig) (exec : Nat → Bool) (ts : String) :
    ∀ r i fs k, i ≤ k → k < i + r → (∀ j, i ≤ j → j < k → exec j = true) →
      exec k = false →
      (runLoop cfg exec ts r i fs).ok = false ∧
      (runLoop cfg exec ts r i fs).fs =
        (if i = k then fs else some (StateFileContent.valid (mkSaved k cfg ts))) := by
  intro r
  induction r with
  | zero => intro i fs k h1 h2 _ _; exact absurd h2 (by omega)
  | succ r ih =>
      intro i fs k h1 h2 hpre hk
      by_cases hik : i = k
      · subst hik
        simp [runLoop, hk]
      · have hx : exec i = true := hpre i le_rfl (by omega)
        have hr := ih (i + 1) (some (StateFileContent.valid (mkSaved (i + 1) cfg ts))) k
          (by omega) (by omega) (fun j hj1 hj2 => hpre j (by omega) hj2) hk
        rcases hr with ⟨hok, hfs⟩
        refine ⟨by simpa [runLoop, hx] using hok, ?_⟩
        simp only [runLoop, hx, if_true]
        rw [hfs]
        by_cases h2k : i + 1 = k
        · subst h2k; simp [hik]
        · simp [h2k, hik]

theorem runLoop_save_before (cfg : InstallationConfig) (exec : Nat → Bool)
    (ts : String) :
    ∀ r i fs l1 k b l2,
      (runLoop cfg exec ts r i fs).trace = l1 ++ Event.execStep k b :: l2 →
      k = i ∨ Event.saveState (mkSaved k cfg ts) ∈ l1 := by
  intro r
  induction r with
  | zero =>
      intro i fs l1 k b l2 h
      have hmem : Event.execStep k b ∈ (runLoop cfg exec ts 0 i fs).trace := by
        rw [h]; simp
      cases fs <;> simp [runLoop] at hmem
  | succ r ih =>
      intro i fs l1 k b l2 h
      cases hx : exec i with
      | true =>
          simp only [runLoop, hx, if_true] at h
          rcases l1 with _ | ⟨e1, l1⟩
          · rw [List.nil_append] at h; injection h with h1 _; cases h1
          · rw [List.cons_append] at h
            injection h with h1 h
            rcases l1 with _ | ⟨e2, l1⟩
            · rw [List.nil_append] at h
              injection h with h2 _
              injection h2 with hk _
              exact Or.inl hk.symm
            · rw [List.cons_append] at h
              injection h with h2 h
              rcases l1 with _ | ⟨e3, l1⟩
              · rw [List.nil_append] at h; injection h with h3 _; cases h3
              · rw [List.cons_append] at h
                injection h with h3 h
                rcases ih (i + 1) _ l1 k b l2 h with hk | hmem
                · subst hk
                  subst h3
                  right; simp
                · right; simp [hmem]
      | false =>
          simp only [runLoop, hx, if_false] at h
          rcases l1 with _ | ⟨e1, l1⟩
          · rw [List.nil_append] at h; injection h with h1 _; cases h1
          · rw [List.cons_append] at h
            injection h with h1 h
            rcases l1 with _ | ⟨e2, l1⟩
            · rw [List.nil_append] at h
              injection h with h2 _
              injection h2 with hk _
              exact Or.inl hk.symm
            · rw [List.cons_append] at h
              injection h with h2 h
              exact absurd h (by simp)

theorem runLoop_success_saves (cfg : InstallationConfig) (exec : Nat → Bool)
    (ts : String) :
    ∀ r i fs k, Event.execStep k true ∈ (runLoop cfg exec ts r i fs).trace →
      Event.saveState (mkSaved (k + 1) cfg ts) ∈ (runLoop cfg exec ts r i fs).trace := by
  intro r
  induction r with
  | zero => intro i fs k h; cases fs <;> simp [runLoop] at h
  | succ r ih =>
      intro i fs k h
      cases hx : exec i with
      | true =>
          simp only [runLoop, hx, if_true, List.mem_cons] at h ⊢
          rcases h with h | h | h | h
          · cases h
          · injection h with hk _
            subst hk
            exact Or.inr (Or.inr (Or.inl rfl))
          · cases h
          · exact Or.inr (Or.inr (Or.inr (ih _ _ _ h)))
      | false =>
          simp [runLoop, hx] at h

theorem runLoop_no_collect (cfg : InstallationConfig) (exec : Nat → Bool)
    (ts : String) :
    ∀ r i fs, Event.collectConfig ∉ (runLoop cfg exec ts r i fs).trace := by
  intro r
  induction r with
  | zero => intro i fs; cases fs <;> simp [runLoop]
  | succ r ih =>
      intro i fs
      cases hx : exec i with
      | true =>
          simp only [runLoop, hx, if_true, List.mem_cons]
          intro h
          rcases h with h | h | h | h
          · cases h
          · cases h
          · cases h
          · exact ih _ _ h
      | false => simp [runLoop, hx]

theorem runLoop_head (cfg : InstallationConfig) (exec : Nat → Bool) (ts : String)
    (r i : Nat) (fs : Option StateFileContent) :
    ∃ rest, (runLoop cfg exec ts (r + 1) i fs).trace =
      Event.stepStart i :: Event.execStep i (exec i) :: rest := by
  cases hx : exec i with
  | true =>
      refine ⟨Event.saveState (mkSaved (i + 1) cfg ts) ::
        (runLoop cfg exec ts r (i + 1)
          (some (StateFileContent.valid (mkSaved (i + 1) cfg ts)))).trace, ?_⟩
      simp [runLoop, hx]
  | false =>
      refine ⟨[], ?_⟩
      simp [runLoop, hx]

theorem run_installation_all_success_aux (cs0 : Nat) (cfg0 : InstallationConfig)
    (fs0 : Option StateFileContent) (ans : Bool) (exec : Nat → Bool) (ts : String)
    (hexec : ∀ j, j < total_steps → exec j = true) :
    (run_installation cs0 cfg0 fs0 ans exec ts).ok = true ∧
    (run_installation cs0 cfg0 fs0 ans exec ts).fs = none := by
  unfold run_installation
  cases fs0 with
  | none =>
      exact runLoop_all_success cfg0 exec ts (total_steps - cs0) cs0 none
        (fun j h1 h2 => hexec j (by omega))
  | some content =>
      cases hans : ans with
      | true =>
          have h := runLoop_all_success (load_state cs0 cfg0 (some content)).cfg exec ts
            (total_steps - (load_state cs0 cfg0 (some content)).cs)
            (load_state cs0 cfg0 (some content)).cs (some content)
            (fun j h1 h2 => hexec j (by omega))
          simpa using h
      | false =>
          have h := runLoop_all_success cfg0 exec ts total_steps 0 none
            (fun j h1 h2 => hexec j (by omega))
          simpa using h

theorem run_installation_fail_fresh (cfg1 : InstallationConfig) (ans : Bool)
    (exec : Nat → Bool) (ts : String) (k : Nat)
    (hpre : ∀ j, j < k → exec j = true) (hk : exec k = false)
    (hlt : k < total_steps) :
    (run_installation 0 cfg1 (some (StateFileContent.valid (mkSaved 0 cfg1 ts)))
      ans exec ts).ok = false ∧
    ((1 ≤ k ∨ ans = true) →
      (run_installation 0 cfg1 (some (StateFileContent.valid (mkSaved 0 cfg1 ts)))
        ans exec ts).fs = some (StateFileContent.valid (mkSaved k cfg1 ts))) := by
  cases hans : ans with
  | true =>
      have heq : run_installation 0 cfg1
          (some (StateFileContent.valid (mkSaved 0 cfg1 ts))) true exec ts =
          runLoop cfg1 exec ts (total_steps - 0) 0
            (some (StateFileContent.valid (mkSaved 0 cfg1 ts))) := rfl
      rw [heq]
      have h := runLoop_fail_at cfg1 exec ts (total_steps - 0) 0
        (some (StateFileContent.valid (mkSaved 0 cfg1 ts))) k (by omega) (by omega)
        (fun j _ h2 => hpre j h2) hk
      refine ⟨h.1, fun _ => ?_⟩
      rw [h.2]
      by_cases h0 : 0 = k
      · subst h0; simp
      · simp [h0]
  | false =>
      have heq : run_installation 0 cfg1
          (some (StateFileContent.valid (mkSaved 0 cfg1 ts))) false exec ts =
          { ok := (runLoop cfg1 exec ts total_steps 0 none).ok,
            fs := (runLoop cfg1 exec ts total_steps 0 none).fs,
            trace := Event.removeState ::
              (runLoop cfg1 exec ts total_steps 0 none).trace } := rfl
      rw [heq]
      have h := runLoop_fail_at cfg1 exec ts total_steps 0 none k (by omega)
        (by omega) (fun j _ h2 => hpre j h2) hk
      refine ⟨by simpa using h.1, ?_⟩
      rintro (hk1 | hfalse)
      · have h0 : ¬(0 = k) := by omega
        have h2 := h.2
        rw [if_neg h0] at h2
        simpa using h2
      · cases hfalse

/-- C2: whenever `steps[i].execute` succeeds, the orchestrator assigns
`current_step = i + 1` and persists the state record (index `i + 1`, the
configuration snapshot, the timestamp) immediately, and no step with
index other than the loop's starting index is ever invoked without a
persisted record of its own index appearing earlier in the trace. -/
theorem persist_before_next_step (cfg : InstallationConfig) (exec : Nat → Bool)
    (ts : String) (r i0 : Nat) (fs : Option StateFileContent) (k : Nat) :
    (∀ b l1 l2,
      (runLoop cfg exec ts r i0 fs).trace = l1 ++ Event.execStep k b :: l2 →
      k = i0 ∨ Event.saveState (mkSaved k cfg ts) ∈ l1) ∧
    (Event.execStep k true ∈ (runLoop cfg exec ts r i0 fs).trace →
      Event.saveState (mkSaved (k + 1) cfg ts) ∈ (runLoop cfg exec ts r i0 fs).trace) :=
  ⟨fun b l1 l2 h => runLoop_save_before cfg exec ts r i0 fs l1 k b l2 h,
   fun h => runLoop_success_saves cfg exec ts r i0 fs k h⟩

theorem persist_before_next_step_witness :
    Event.saveState (mkSaved 1 defaultConfig "t") ∈
      [Event.stepStart 0, Event.execStep 0 true,
       Event.saveState (mkSaved 1 defaultConfig "t"), Event.stepStart 1] ∧
    Event.saveState (mkSaved 2 defaultConfig "t") ∈
      (runLoop defaultConfig (fun _ => true) "t" 2 0 none).trace := by
  have h := persist_before_next_step defaultConfig (fun _ => true) "t" 2 0 none 1
  refine ⟨?_, h.2 (by decide)⟩
  rcases h.1 true [Event.stepStart 0, Event.execStep 0 true,
      Event.saveState (mkSaved 1 defaultConfig "t"), Event.stepStart 1]
      [Event.saveState (mkSaved 2 defaultConfig "t"), Event.removeState]
      (by decide) with hk | hmem
  · exact absurd hk (by decide)
  · exact hmem

theorem main_all_success_aux (euid : Nat) (su : Option String)
    (fs0 : Option StateFileContent) (answers : PromptAnswers) (ans : Bool)
    (exec : Nat → Bool) (ts : String)
    (hpriv : privFails euid su = false)
    (hexec : ∀ j, j < total_steps → exec j = true) :
    (main euid su fs0 answers ans exec ts).exit = 0 ∧
    (main euid su fs0 answers ans exec ts).fs = none := by
  cases fs0 with
  | none =>
      have h := run_installation_all_success_aux 0
        (collect_configuration defaultConfig answers 0 ts).1
        (collect_configuration defaultConfig answers 0 ts).2.1 ans exec ts hexec
      constructor <;> simp [main, hpriv, h.1, h.2]
  | some content =>
      have h := run_installation_all_success_aux 0 defaultConfig (some content)
        ans exec ts hexec
      constructor <;> simp [main, hpriv, h.1, h.2]

/-- C3: when every one of the 14 steps succeeds, the run exits with
status 0 and the persisted state file is absent afterwards. -/
theorem completion_clears_state (euid : Nat) (su : Option String)
    (fs0 : Option StateFileContent) (answers : PromptAnswers) (ans : Bool)
    (exec : Nat → Bool) (ts : String)
    (hpriv : privFails euid su = false)
    (hexec : ∀ j, j < total_steps → exec j = true) :
    (main euid su fs0 answers ans exec ts).exit = 0 ∧
    (main euid su fs0 answers ans exec ts).fs = none :=
  main_all_success_aux euid su fs0 answers ans exec ts hpriv hexec

theorem completion_clears_state_witness :
    (main 0 none none answers0 true (fun _ => true) "t").exit = 0 ∧
    (main 0 none none answers0 true (fun _ => true) "t").fs = none :=
  completion_clears_state 0 none none answers0 true (fun _ => true) "t"
    (by decide) (fun j _ => rfl)

/-- C8: the process exit status is 0 on full pipeline success and 1 when a
step fails or the root-privilege precondition fails, the latter producing
an empty trace — the process stops before any configuration collection. -/
theorem exit_status_contract (euid : Nat) (su : Option String)
    (fs0 : Option StateFileContent) (answers : PromptAnswers) (ans : Bool)
    (exec : Nat → Bool) (ts : String) (k : Nat) :
    (privFails euid su = true →
      main euid su fs0 answers ans exec ts = { exit := 1, fs := fs0, trace := [] }) ∧
    (privFails euid su = false → (∀ j, j < total_steps → exec j = true) →
      (main euid su fs0 answers ans exec ts).exit = 0) ∧
    (privFails euid su = false → fs0 = none → (∀ j, j < k → exec j = true) →
      exec k = false → k < total_steps →
      (main euid su fs0 answers ans exec ts).exit = 1) := by
  refine ⟨?_, ?_, ?_⟩
  · intro h
    simp [main, h]
  · intro hpriv hexec
    exact (main_all_success_aux euid su fs0 answers ans exec ts hpriv hexec).1
  · intro hpriv hfs hpre hk hlt
    subst hfs
    have h := (run_installation_fail_fresh
      (collect_config_fields defaultConfig answers) ans exec ts k hpre hk hlt).1
    simp [main, hpriv, collect_configuration, h]

theorem exit_status_contract_witness :
    main 5 none none answers0 true (fun _ => true) "t" =
      { exit := 1, fs := none, trace := [] } ∧
    (main 0 none none answers0 true (fun _ => true) "t").exit = 0 ∧
    (main 0 none none answers0 true (fun _ => false) "t").exit = 1 :=
  ⟨(exit_status_contract 5 none none answers0 true (fun _ => true) "t" 0).1 (by decide),
   (exit_status_contract 0 none none answers0 true (fun _ => true) "t" 0).2.1
     (by decide) (fun j _ => rfl),
   (exit_status_contract 0 none none answers0 true (fun _ => false) "t" 0).2.2
     (by decide) rfl (fun j h => absurd h (by omega)) rfl (by decide)⟩

/-- C9: deserializing a serialized `InstallationConfig` restores it
verbatim — `from_dict (to_dict c) = c` — so the configuration a resumed
run loads from a state file written by `_save_state` equals the one that
was collected. -/
theorem config_roundtrip (c : InstallationConfig) (cs : Nat)
    (cfg0 : InstallationConfig) (i : Nat) (ts : String) :
    InstallationConfig.from_dict (InstallationConfig.to_dict c) = some c ∧
    load_state cs cfg0 (some (StateFileContent.valid (mkSaved i c ts))) =
      { cs := i, cfg := c, ok := true } :=
  ⟨from_dict_to_dict c, rfl⟩

/-- C4: with `skip_ssl` set, `SSLStep.execute` returns success without
invoking any command; with `skip_rce` set, `RCEStep.execute` does the
same. -/
theorem skip_flags_no_commands (cfg : InstallationConfig)
    (o1 o2 : String → CmdOutcome) (s : RceSecrets) :
    (cfg.skip_ssl = true →
      ssl_execute cfg o1 = { ok := true, reason := none, ran := [] }) ∧
    (cfg.skip_rce = true →
      rce_execute cfg s o2 = { ok := true, reason := none, ran := [] }) := by
  constructor
  · intro h; simp [ssl_execute, h]
  · intro h; simp [rce_execute, h]

theorem skip_flags_no_commands_witness :
    ssl_execute { defaultConfig with skip_ssl := true, skip_rce := true }
        (fun _ => CmdOutcome.success) = { ok := true, reason := none, ran := [] } ∧
    rce_execute { defaultConfig with skip_ssl := true, skip_rce := true }
        { ecosystem_secret := "a", ecosystem_key := "b", cipher_password := "c" }
        (fun _ => CmdOutcome.success) = { ok := true, reason := none, ran := [] } :=
  ⟨(skip_flags_no_commands { defaultConfig with skip_ssl := true, skip_rce := true }
      (fun _ => CmdOutcome.success) (fun _ => CmdOutcome.success)
      { ecosystem_secret := "a", ecosystem_key := "b", cipher_password := "c" }).1 rfl,
   (skip_flags_no_commands { defaultConfig with skip_ssl := true, skip_rce := true }
      (fun _ => CmdOutcome.success) (fun _ => CmdOutcome.success)
      { ecosystem_secret := "a", ecosystem_key := "b", cipher_password := "c" }).2 rfl⟩

/-- C5: an unrecoverable condition inside a step — a command exiting
non-zero, a timeout, or any unexpected exception, all of which
`CommandRunner.run_command` re-raises — is caught at the step's `except`
boundary and converted into a `False` return with the exception as the
reason; the step functions are total, so nothing escapes their boundary.
A failing prerequisites check (even a raising one) likewise yields a
`False` return. -/
theorem step_failure_contained (cfg : InstallationConfig)
    (o : String → CmdOutcome) (s : RceSecrets) (co : CheckOracle)
    (e : CmdOutcome) :
    (cfg.skip_ssl = false → (runCmdSeq o (ssl_commands cfg)).1 = Except.error e →
      ssl_execute cfg o =
        { ok := false, reason := some e, ran := (runCmdSeq o (ssl_commands cfg)).2 }) ∧
    (cfg.skip_rce = false → (runCmdSeq o (rce_commands cfg s)).1 = Except.error e →
      rce_execute cfg s o =
        { ok := false, reason := some e, ran := (runCmdSeq o (rce_commands cfg s)).2 }) ∧
    ((∃ c ∈ prereq_checks co, checkPassed c = false) →
      (prerequisites_execute co).ok = false) ∧
    (∀ cmd, o cmd ≠ CmdOutcome.success → run_command o cmd = Except.error (o cmd)) := by
  refine ⟨?_, ?_, ?_, ?_⟩
  · intro hskip herr
    rcases hseq : runCmdSeq o (ssl_commands cfg) with ⟨r1, l⟩
    rw [hseq] at herr
    simp only at herr
    subst herr
    simp [ssl_execute, hskip, hseq]
  · intro hskip herr
    rcases hseq : runCmdSeq o (rce_commands cfg s) with ⟨r1, l⟩
    rw [hseq] at herr
    simp only at herr
    subst herr
    simp [rce_execute, hskip, hseq]
  · rintro ⟨c, hc, hfalse⟩
    show (prereq_checks co).all checkPassed = false
    cases hall : (prereq_checks co).all checkPassed with
    | false => rfl
    | true =>
        have hpc := List.all_eq_true.mp hall c hc
        rw [hfalse] at hpc
        cases hpc
  · intro cmd hne
    unfold run_command
    cases hcmd : o cmd with
    | success => exact absurd hcmd hne
    | nonZeroExit rc => rfl
    | timeoutExpired => rfl
    | unexpected m => rfl

theorem step_failure_contained_witness :
    ssl_execute defaultConfig (fun _ => CmdOutcome.nonZeroExit 1) =
      { ok := false, reason := some (CmdOutcome.nonZeroExit 1),
        ran := (runCmdSeq (fun _ => CmdOutcome.nonZeroExit 1)
          (ssl_commands defaultConfig)).2 } ∧
    rce_execute defaultConfig
        { ecosystem_secret := "a", ecosystem_key := "b", cipher_password := "c" }
        (fun _ => CmdOutcome.timeoutExpired) =
      { ok := false, reason := some CmdOutcome.timeoutExpired,
        ran := (runCmdSeq (fun _ => CmdOutcome.timeoutExpired)
          (rce_commands defaultConfig
            { ecosystem_secret := "a", ecosystem_key := "b", cipher_password := "c" })).2 } ∧
    (prerequisites_execute
      { ubuntu := Except.ok (true, ""), sudo_access := Except.ok (true, ""),
        hardware := Except.error "boom", internet := Except.ok (true, ""),
        disk_space := Except.ok (true, "") }).ok = false ∧
    run_command (fun _ => CmdOutcome.nonZeroExit 1) "sudo apt update" =
      Except.error (CmdOutcome.nonZeroExit 1) := by
  have h1 := step_failure_contained defaultConfig (fun _ => CmdOutcome.nonZeroExit 1)
    { ecosystem_secret := "a", ecosystem_key := "b", cipher_password := "c" }
    { ubuntu := Except.ok (true, ""), sudo_access := Except.ok (true, ""),
      hardware := Except.error "boom", internet := Except.ok (true, ""),
      disk_space := Except.ok (true, "") } (CmdOutcome.nonZeroExit 1)
  have h2 := step_failure_contained defaultConfig (fun _ => CmdOutcome.timeoutExpired)
    { ecosystem_secret := "a", ecosystem_key := "b", cipher_password := "c" }
    { ubuntu := Except.ok (true, ""), sudo_access := Except.ok (true, ""),
      hardware := Except.error "boom", internet := Except.ok (true, ""),
      disk_space := Except.ok (true, "") } CmdOutcome.timeoutExpired
  refine ⟨h1.1 rfl rfl, h2.2.1 rfl rfl, ?_, h1.2.2.2 "sudo apt update" (by decide)⟩
  exact h1.2.2.1 ⟨Except.error "boom", by simp [prereq_checks], rfl⟩

/-- C10: the startup privilege guard passes exactly when the effective
user id is 0 or `SUDO_USER` is set to a non-empty string; in particular a
non-root process with a non-empty `SUDO_USER` goes on to interactive
configuration collection. -/
theorem privilege_check_iff (euid : Nat) (su : Option String)
    (answers : PromptAnswers) (ans : Bool) (exec : Nat → Bool) (ts u : String) :
    (privFails euid su = false ↔ euid = 0 ∨ ∃ s, su = some s ∧ s ≠ "") ∧
    (u ≠ "" →
      ∃ rest, (main euid (some u) none answers ans exec ts).trace =
        Event.collectConfig :: rest) := by
  constructor
  · constructor
    · intro h
      by_cases he : euid = 0
      · exact Or.inl he
      · right
        cases su with
        | none =>
            exfalso
            simp [privFails, envTruthy, he] at h
        | some s =>
            refine ⟨s, rfl, ?_⟩
            intro hs
            subst hs
            simp [privFails, envTruthy, he] at h
            exact absurd h (by decide)
    · rintro (he | ⟨s, hs, hne⟩)
      · simp [privFails, envTruthy, he]
      · subst hs
        have hempty : s.isEmpty = false := by
          cases hempty : s.isEmpty with
          | false => rfl
          | true => exact absurd ((String.isEmpty_iff s).mp hempty) hne
        simp [privFails, envTruthy, hempty]
  · intro hu
    have hempty : u.isEmpty = false := by
      cases hempty : u.isEmpty with
      | false => rfl
      | true => exact absurd ((String.isEmpty_iff u).mp hempty) hu
    have hpriv : privFails euid (some u) = false := by
      simp [privFails, envTruthy, hempty]
    refine ⟨Event.saveState (mkSaved 0 (collect_config_fields defaultConfig answers) ts) ::
      (run_installation 0 (collect_config_fields defaultConfig answers)
        (some (StateFileContent.valid
          (mkSaved 0 (collect_config_fields defaultConfig answers) ts)))
        ans exec ts).trace, ?_⟩
    simp [main, hpriv, collect_configuration]

theorem privilege_check_iff_witness :
    privFails 1000 (some "admin") = false ∧
    ∃ rest,
      (main 1000 (some "admin") none
        { domain := "", canvas_password := "", configure_smtp := false,
          smtp_server := "", smtp_port := "", smtp_username := "",
          smtp_password := "", smtp_from_email := "", smtp_from_name := "",
          configure_rce := false, flickr_api_key := "", youtube_api_key := "",
          ssl_confirm := true, optimization_confirm := true }
        true (fun _ => true) "t").trace = Event.collectConfig :: rest := by
  have h := privilege_check_iff 1000 (some "admin")
    { domain := "", canvas_password := "", configure_smtp := false,
      smtp_server := "", smtp_port := "", smtp_username := "",
      smtp_password := "", smtp_from_email := "", smtp_from_name := "",
      configure_rce := false, flickr_api_key := "", youtube_api_key := "",
      ssl_confirm := true, optimization_confirm := true }
    true (fun _ => true) "t" "admin"
  exact ⟨h.1.mpr (Or.inr ⟨"admin", rfl, by decide⟩), h.2 (by decide)⟩

/-- C1 counterexample: a fresh run in which the spurious resume prompt
(raised because configuration collection already saved state) is declined
and step 0 then fails.  Steps `0..k-1` (vacuously, `k = 0`) succeeded and
step `k` failed, yet no persisted state exists at halt — the decline
deleted the file and no step success ever rewrote it — so the persisted
index does not equal `k`. -/
theorem resume_invariant_counterexample :
    (main 0 none none answers0 false (fun _ => false) "t").fs = none ∧
    (fun _ => false : Nat → Bool) 0 = false :=
  ⟨rfl, rfl⟩

/-- C1 (amended): for a fresh run in which steps `0..k-1` succeed and step
`k` fails, the persisted state's index equals `k` provided `k ≥ 1` or the
resume prompt (shown because configuration collection already saved state)
was accepted; a subsequent invocation that resumes from that state invokes
step `k` again, before any step with index greater than `k`. -/
theorem resume_invariant (answers answers2 : PromptAnswers) (ans : Bool)
    (exec exec2 : Nat → Bool) (ts ts2 : String) (k : Nat)
    (hpre : ∀ j, j < k → exec j = true) (hk : exec k = false)
    (hlt : k < total_steps) (hsave : 1 ≤ k ∨ ans = true) :
    (main 0 none none answers ans exec ts).fs =
      some (StateFileContent.valid
        (mkSaved k (collect_config_fields defaultConfig answers) ts)) ∧
    (∃ rest,
      (main 0 none
        (some (StateFileContent.valid
          (mkSaved k (collect_config_fields defaultConfig answers) ts)))
        answers2 true exec2 ts2).trace =
        Event.stepStart k :: Event.execStep k (exec2 k) :: rest) ∧
    (∀ j b, Event.execStep j b ∈
      (main 0 none
        (some (StateFileContent.valid
          (mkSaved k (collect_config_fields defaultConfig answers) ts)))
        answers2 true exec2 ts2).trace → k ≤ j) := by
  have heq1 : (main 0 none none answers ans exec ts).fs =
      (run_installation 0 (collect_config_fields defaultConfig answers)
        (some (StateFileContent.valid
          (mkSaved 0 (collect_config_fields defaultConfig answers) ts)))
        ans exec ts).fs := rfl
  have heq2 : (main 0 none
      (some (StateFileContent.valid
        (mkSaved k (collect_config_fields defaultConfig answers) ts)))
      answers2 true exec2 ts2).trace =
      (runLoop (collect_config_fields defaultConfig answers) exec2 ts2
        (total_steps - k) k
        (some (StateFileContent.valid
          (mkSaved k (collect_config_fields defaultConfig answers) ts)))).trace := rfl
  refine ⟨?_, ?_, ?_⟩
  · rw [heq1]
    exact (run_installation_fail_fresh (collect_config_fields defaultConfig answers)
      ans exec ts k hpre hk hlt).2 hsave
  · obtain ⟨m, hm⟩ : ∃ m, total_steps - k = m + 1 :=
      ⟨total_steps - k - 1, by omega⟩
    rw [heq2, hm]
    exact runLoop_head (collect_config_fields defaultConfig answers) exec2 ts2 m k _
  · intro j b hmem
    rw [heq2] at hmem
    exact (runLoop_exec_mem_bounds (collect_config_fields defaultConfig answers)
      exec2 ts2 (total_steps - k) k _ j b hmem).1

/-- C1 witness: `k = 2` with the first two steps succeeding and step 2
failing; the persisted index is 2 and the resumed run starts at step 2. -/
theorem resume_invariant_witness :
    (main 0 none none answers0 true (fun j => decide (j < 2)) "t").fs =
      some (StateFileContent.valid
        (mkSaved 2 (collect_config_fields defaultConfig answers0) "t")) ∧
    (∃ rest, (main 0 none
        (some (StateFileContent.valid
          (mkSaved 2 (collect_config_fields defaultConfig answers0) "t")))
        answers0 true (fun _ => true) "t2").trace =
        Event.stepStart 2 :: Event.execStep 2 true :: rest) := by
  have h := resume_invariant answers0 answers0 true (fun j => decide (j < 2))
    (fun _ => true) "t" "t2" 2 (fun j hj => decide_eq_true hj) (by decide)
    (by decide) (Or.inl (by decide))
  exact ⟨h.1, h.2.1⟩

/-- C6 counterexample: with a present-but-unparseable state file the run
does not collect configuration interactively — `main` skips collection
because the file exists, and the failed load leaves the default (empty)
configuration in place — contradicting the claim that a parse failure
starts a fresh run with interactive collection. -/
theorem corrupt_state_skips_collection :
    Event.collectConfig ∉
      (main 0 none (some StateFileContent.corrupt) answers0 true
        (fun _ => false) "t").trace := by
  decide

/-- C6 (amended): a missing or unparseable state file makes `_load_state`
report absence (`false`) without raising, and execution then begins at
step index 0; but interactive configuration collection happens only when
the file is absent — with a present-but-corrupt file the run proceeds on
the default configuration without any collection. -/
theorem state_load_failure_recovery (cs0 : Nat) (cfg0 : InstallationConfig)
    (answers : PromptAnswers) (ans : Bool) (exec : Nat → Bool) (ts : String) :
    load_state cs0 cfg0 (some StateFileContent.corrupt) =
      { cs := cs0, cfg := cfg0, ok := false } ∧
    load_state cs0 cfg0 none = { cs := cs0, cfg := cfg0, ok := false } ∧
    (∃ rest,
      (main 0 none (some StateFileContent.corrupt) answers ans exec ts).trace =
        (if ans then ([] : List Event) else [Event.removeState]) ++
          Event.stepStart 0 :: Event.execStep 0 (exec 0) :: rest) ∧
    Event.collectConfig ∉
      (main 0 none (some StateFileContent.corrupt) answers ans exec ts).trace ∧
    (∃ rest, (main 0 none none answers ans exec ts).trace =
      Event.collectConfig :: Event.saveState
        (mkSaved 0 (collect_config_fields defaultConfig answers) ts) :: rest) := by
  have h14 : total_steps = 13 + 1 := rfl
  refine ⟨rfl, rfl, ?_, ?_, ?_⟩
  · cases hans : ans with
    | true =>
        have heq : (main 0 none (some StateFileContent.corrupt) answers true
            exec ts).trace =
            (runLoop defaultConfig exec ts (total_steps - 0) 0
              (some StateFileContent.corrupt)).trace := rfl
        obtain ⟨rest, hr⟩ := runLoop_head defaultConfig exec ts 13 0
          (some StateFileContent.corrupt)
        refine ⟨rest, ?_⟩
        rw [heq, show total_steps - 0 = 13 + 1 from rfl, hr]
        simp
    | false =>
        have heq : (main 0 none (some StateFileContent.corrupt) answers false
            exec ts).trace =
            Event.removeState ::
              (runLoop defaultConfig exec ts total_steps 0 none).trace := rfl
        obtain ⟨rest, hr⟩ := runLoop_head defaultConfig exec ts 13 0 none
        refine ⟨rest, ?_⟩
        rw [heq, h14, hr]
        simp
  · cases hans : ans with
    | true =>
        have heq : (main 0 none (some StateFileContent.corrupt) answers true
            exec ts).trace =
            (runLoop defaultConfig exec ts (total_steps - 0) 0
              (some StateFileContent.corrupt)).trace := rfl
        rw [heq]
        exact runLoop_no_collect defaultConfig exec ts (total_steps - 0) 0 _
    | false =>
        have heq : (main 0 none (some StateFileContent.corrupt) answers false
            exec ts).trace =
            Event.removeState ::
              (runLoop defaultConfig exec ts total_steps 0 none).trace := rfl
        rw [heq]
        intro hmem
        rcases List.mem_cons.mp hmem with h | h
        · cases h
        · exact runLoop_no_collect defaultConfig exec ts total_steps 0 none h
  · exact ⟨(run_installation 0 (collect_config_fields defaultConfig answers)
      (some (StateFileContent.valid
        (mkSaved 0 (collect_config_fields defaultConfig answers) ts)))
      ans exec ts).trace, rfl⟩

theorem state_load_failure_recovery_witness :
    Event.collectConfig ∉
      (main 0 none (some StateFileContent.corrupt) answers0 true
        (fun _ => true) "t").trace ∧
    load_state 3 defaultConfig (some StateFileContent.corrupt) =
      { cs := 3, cfg := defaultConfig, ok := false } := by
  have h := state_load_failure_recovery 3 defaultConfig answers0 true
    (fun _ => true) "t"
  exact ⟨h.2.2.2.1, h.1⟩

/-- C7 counterexample: in a fresh run where step 0 fails immediately — so
no step ever returned success — the persisted state file nevertheless
exists, written at the end of configuration collection (index 0) before
any step started, contradicting "created only upon the first successful
step completion". -/
theorem state_file_exists_before_any_success :
    (main 0 none none answers0 true (fun _ => false) "t").fs =
      some (StateFileContent.valid
        (mkSaved 0 (collect_config_fields defaultConfig answers0) "t")) ∧
    (main 0 none none answers0 true (fun _ => false) "t").trace =
      [Event.collectConfig,
       Event.saveState (mkSaved 0 (collect_config_fields defaultConfig answers0) "t"),
       Event.stepStart 0, Event.execStep 0 false] :=
  ⟨rfl, rfl⟩

/-- C7 (amended): the persisted state is created at the end of
configuration collection, with step index 0, before any step executes; it
is then overwritten after every successful step and deleted on
completion. -/
theorem state_created_at_collection (answers : PromptAnswers) (ans : Bool)
    (exec : Nat → Bool) (ts : String) :
    (collect_configuration defaultConfig answers 0 ts).2.1 =
      some (StateFileContent.valid
        (mkSaved 0 (collect_config_fields defaultConfig answers) ts)) ∧
    (∃ rest, (main 0 none none answers ans exec ts).trace =
      Event.collectConfig :: Event.saveState
        (mkSaved 0 (collect_config_fields defaultConfig answers) ts) :: rest) :=
  ⟨rfl, ⟨(run_installation 0 (collect_config_fields defaultConfig answers)
      (some (StateFileContent.valid
        (mkSaved 0 (collect_config_fields defaultConfig answers) ts)))
      ans exec ts).trace, rfl⟩⟩

end CanvasInstall
